import Mathlib

/-!
Verification of the DataHub chart patch builder
(`metadata-ingestion/src/datahub/specific/chart.py`) against its
natural-language specification.

The file embeds `ChartPatchBuilder` and the engine it delegates to.
`chart.py` itself is translated directly from the source; the engine
(`MetadataPatchProposal`, the ownership and custom-properties helpers, the
path-segment codec, the urn collaborators) is not part of the visible
source slice and is modelled from the specification, as marked on each
definition.
-/

namespace DatahubChart

/-- Modelled from the spec: the audit-timestamp minter collaborator returns a
`Timestamp\x7btime, actor\x7d` value.  (`AuditStampClass` from the generated
schema classes; not in the visible source slice.) -/
structure AuditStamp where
  time : Nat
  actor : String
deriving DecidableEq, Repr

/-- `EdgeClass` (imported as `Edge`): a typed, timestamped relationship record
pointing at another entity's urn.  Fields beyond the ones `chart.py` touches
(`destinationUrn`, `created`, `lastModified`) are omitted. -/
structure Edge where
  destinationUrn : String
  created : Option AuditStamp := none
  lastModified : Option AuditStamp := none
deriving DecidableEq, Repr

/-- `TagAssociationClass` (imported as `Tag`): wraps a tag urn. -/
structure Tag where
  tag : String
deriving DecidableEq, Repr

/-- `GlossaryTermAssociationClass` (imported as `Term`): wraps a term urn. -/
structure Term where
  urn : String
deriving DecidableEq, Repr

/-- `OwnerClass` (imported as `Owner`): an owner urn plus an ownership type
(`OwnershipTypeClass` values are strings). -/
structure Owner where
  owner : String
  type : String
deriving DecidableEq, Repr

/-- `ChangeAuditStampsClass`: created and last-modified stamps. -/
structure ChangeAuditStamps where
  created : AuditStamp
  lastModified : AuditStamp
deriving DecidableEq, Repr

/-- The payload of a patch operation.  `chart.py` passes strings, ints, tag /
term / owner records, whole collections, and the empty dict `\x7b\x7d` used as the
remove marker; each shape is one constructor. -/
inductive PatchValue where
  | vStr (s : String)
  | vInt (n : Int)
  | vTag (t : Tag)
  | vTerm (t : Term)
  | vOwner (o : Owner)
  | vOwners (os : List Owner)
  | vEdge (e : Edge)
  | vEdges (es : List Edge)
  | vProps (ps : List (String × String))
  | vAuditStamps (c : ChangeAuditStamps)
  | vEmpty
deriving DecidableEq, Repr

/-- Operation kinds of a patch operation. -/
inductive PatchOpKind where
  | add
  | remove
  | replace
deriving DecidableEq, Repr

/-- A Patch Operation: aspect name, operation kind, structured path, value. -/
structure PatchOp where
  aspectName : String
  op : PatchOpKind
  path : String
  value : PatchValue
deriving DecidableEq, Repr

/-- Errors raised by mutation calls, per the spec's error taxonomy (§7).
`requiredFieldError` carries the source's assertion message;
`invalidUrnTypeError` carries the expected type qualifier and the offending
urn; `invalidArgumentError` flags a structurally empty key. -/
inductive BuildError where
  | invalidUrnTypeError (expected : String) (urn : String)
  | requiredFieldError (msg : String)
  | invalidArgumentError (msg : String)
deriving DecidableEq, Repr

/-- Decidable equality on `Except` results, so concrete runs of fallible
mutation calls can be settled by `decide`. -/
instance instDecEqExcept {ε α : Type} [DecidableEq ε] [DecidableEq α] :
    DecidableEq (Except ε α) := fun a b =>
  match a, b with
  | .ok x, .ok y =>
      if h : x = y then .isTrue (by rw [h])
      else .isFalse (by intro hc; cases hc; exact h rfl)
  | .error x, .error y =>
      if h : x = y then .isTrue (by rw [h])
      else .isFalse (by intro hc; cases hc; exact h rfl)
  | .ok _, .error _ => .isFalse (by intro hc; cases hc)
  | .error _, .ok _ => .isFalse (by intro hc; cases hc)

/-- The builder state: the entity urn, optional system metadata and audit
header (opaque here), and the ordered patch accumulator.  A mutation call
that raises leaves the caller's builder untouched: in this embedding state
changes only through a returned builder, so an `Except.error` result is
exactly "exception raised, accumulator as before". -/
structure ChartPatchBuilder where
  urn : String
  systemMetadata : Option String := none
  auditHeader : Option String := none
  patches : List PatchOp := []
deriving DecidableEq, Repr

/-- `ChartInfoClass.ASPECT_NAME`. -/
def chartInfoAspect : String := "chartInfo"

/-- `GlobalTagsClass.ASPECT_NAME`. -/
def globalTagsAspect : String := "globalTags"

/-- `GlossaryTermsClass.ASPECT_NAME`. -/
def glossaryTermsAspect : String := "glossaryTerms"

/-- Modelled from the spec: the ownership aspect name the ownership helper is
bound to (§4.3). -/
def ownershipAspect : String := "ownership"

/-- Modelled from the spec: one character of the Path Segment Codec.  The
codec must make a segment safe to join with the `/` separator, reversibly
distinguishable from the separator and from the escape character itself
(§4.1, §8); the separator and the escape character are rewritten, every
other character is left intact — which matches the spec's own path examples
such as `/owners/urn:li:corpuser:alice`, where `:` is untouched. -/
def quoteChar (c : Char) : String :=
  if c = '~' then "~0" else if c = '/' then "~1" else String.singleton c

/-- Modelled from the spec: `MetadataPatchProposal.quote`, the Path Segment
Codec's `quote(segment) -> string` (§4.1).  Deterministic, round-trippable,
empty-in empty-out (the spec allows empty-as-valid). -/
def quote (s : String) : String :=
  s.toList.foldl (fun acc c => acc ++ quoteChar c) ""

/-- Modelled from the spec: `MetadataPatchProposal._add_patch`, the Patch
Accumulator's `append` (§4.2) — appends one operation, preserving insertion
order, with no deduplication.  The spec's `InvalidPathError` guard for an
empty path or aspect name is unreachable from `chart.py` (every call site
passes non-empty literals) and is elided. -/
def addPatch (b : ChartPatchBuilder) (aspectName : String) (op : PatchOpKind)
    (path : String) (value : PatchValue) : ChartPatchBuilder :=
  { b with patches := b.patches ++ [⟨aspectName, op, path, value⟩] }

/-- Python's `str.startswith`, computed on the character lists so it reduces
in the kernel. -/
def strStartsWith (s pre : String) : Bool :=
  pre.toList.isPrefixOf s.toList

/-- Modelled from the spec: the identifier collaborator's type-qualifier
accessor (§6): for a well-formed `urn:li:<type>:<rest>` it returns the type
qualifier. -/
def urnTypeQualifier (urn : String) : Option String :=
  if strStartsWith urn "urn:li:" then
    let rest := (urn.toList.drop 7)
    let ty := rest.takeWhile (fun c => c ≠ ':')
    if ty.length < rest.length then some (String.mk ty) else none
  else none

/-- Modelled from the spec: `MetadataPatchProposal._ensure_urn_type` — before
appending, each relationship target's type-qualifier is checked against the
expected kind; a mismatch fails with `InvalidUrnTypeError` and aborts the
call without mutating the accumulator (§4.4, §7). -/
def ensureUrnType (expected : String) (edges : List Edge) : Except BuildError Unit :=
  match edges.find? (fun e => urnTypeQualifier e.destinationUrn ≠ some expected) with
  | some e => .error (.invalidUrnTypeError expected e.destinationUrn)
  | none => .ok ()

/-- Modelled from the spec: `TagUrn.create_from_id` of the identifier
collaborator — builds the tag-typed urn for a bare tag id. -/
def tagUrnCreateFromId (id : String) : String :=
  "urn:li:tag:" ++ id

/-- Modelled from the spec: `OwnershipPatchHelper.add_owner` — `addEntry` of
the ownership helper: an `add` operation at the quoted owner-id and
owner-type segments (§4.3, §6), failing with `InvalidArgumentError` only on
a structurally empty key. -/
def ownershipAddOwner (b : ChartPatchBuilder) (owner : Owner) :
    Except BuildError ChartPatchBuilder :=
  if owner.owner = "" then
    .error (.invalidArgumentError "owner key must be non-empty")
  else
    .ok (addPatch b ownershipAspect .add
      ("/owners/" ++ quote owner.owner ++ "/" ++ quote owner.type) (.vOwner owner))

/-- Modelled from the spec: `OwnershipPatchHelper.remove_owner` — `removeEntry`
with an optional ownership-type discriminator: when present the path carries
both the owner key and the type, otherwise the owner key alone (§4.3). -/
def ownershipRemoveOwner (b : ChartPatchBuilder) (owner : String)
    (ownerType : Option String) : Except BuildError ChartPatchBuilder :=
  if owner = "" then
    .error (.invalidArgumentError "owner key must be non-empty")
  else
    match ownerType with
    | some ty =>
        .ok (addPatch b ownershipAspect .remove
          ("/owners/" ++ quote owner ++ "/" ++ quote ty) .vEmpty)
    | none =>
        .ok (addPatch b ownershipAspect .remove ("/owners/" ++ quote owner) .vEmpty)

/-- Modelled from the spec: `OwnershipPatchHelper.set_owners` — `setAll`: one
`add` operation at the bare field with the entire collection (§4.3). -/
def ownershipSetOwners (b : ChartPatchBuilder) (owners : List Owner) :
    ChartPatchBuilder :=
  addPatch b ownershipAspect .add "/owners" (.vOwners owners)

/-- Modelled from the spec: `CustomPropertiesPatchHelper.add_property` —
`addEntry` of the custom-properties helper bound to the chart-info aspect:
an `add` at `/customProperties/<quoted-key>` (§4.3), failing with
`InvalidArgumentError` only on a structurally empty key. -/
def customPropertiesAddProperty (b : ChartPatchBuilder) (key value : String) :
    Except BuildError ChartPatchBuilder :=
  if key = "" then
    .error (.invalidArgumentError "customProperties key must be non-empty")
  else
    .ok (addPatch b chartInfoAspect .add ("/customProperties/" ++ quote key)
      (.vStr value))

/-- Modelled from the spec: `CustomPropertiesPatchHelper.remove_property` —
`removeEntry`: a `remove` at `/customProperties/<quoted-key>` with the
empty marker (§4.3). -/
def customPropertiesRemoveProperty (b : ChartPatchBuilder) (key : String) :
    Except BuildError ChartPatchBuilder :=
  if key = "" then
    .error (.invalidArgumentError "customProperties key must be non-empty")
  else
    .ok (addPatch b chartInfoAspect .remove ("/customProperties/" ++ quote key)
      .vEmpty)

/-- The `Union[Edge, Urn, str]` argument of `add_input_edge`. -/
inductive InputRef where
  | edge (e : Edge)
  | urn (u : String)
  | str (s : String)
deriving DecidableEq, Repr

/-- The `Union[str, Urn]` arguments of `remove_tag` / `remove_term` /
`remove_input_edge`.  A `Urn` stringifies to the string it wraps. -/
inductive UrnOrStr where
  | urn (u : String)
  | str (s : String)
deriving DecidableEq, Repr

/-- `str(input)` for a `Union[str, Urn]` value. -/
def UrnOrStr.toString : UrnOrStr → String
  | .urn u => u
  | .str s => s

/-- `ChartPatchBuilder.__init__`: fresh builder for an entity urn with empty
accumulator. -/
def mkChartPatchBuilder (urn : String) (systemMetadata : Option String := none)
    (auditHeader : Option String := none) : ChartPatchBuilder :=
  { urn := urn, systemMetadata := systemMetadata, auditHeader := auditHeader,
    patches := [] }

/-- `ChartPatchBuilder.add_owner` (chart.py:48-59): delegates to the ownership
helper and returns the builder. -/
def add_owner (b : ChartPatchBuilder) (owner : Owner) :
    Except BuildError ChartPatchBuilder :=
  ownershipAddOwner b owner

/-- `ChartPatchBuilder.remove_owner` (chart.py:61-78): delegates to the
ownership helper; `owner_type` is optional. -/
def remove_owner (b : ChartPatchBuilder) (owner : String)
    (ownerType : Option String := none) : Except BuildError ChartPatchBuilder :=
  ownershipRemoveOwner b owner ownerType

/-- `ChartPatchBuilder.set_owners` (chart.py:80-91): delegates to the ownership
helper. -/
def set_owners (b : ChartPatchBuilder) (owners : List Owner) : ChartPatchBuilder :=
  ownershipSetOwners b owners

/-- `ChartPatchBuilder.add_input_edge` (chart.py:93-126): an `Edge` argument is
used as given; a `Urn` or `str` argument is stringified and wrapped into an
`Edge` whose `created` / `lastModified` stamps are both minted from the
audit-timestamp collaborator (`self._mint_auditstamp()`, passed here as the
`mint` argument).  The edge's destination is dataset-type-checked before the
append; the appended operation is an `add` at
`/inputEdges/<quote(input_urn)>` whose value is `input_urn`. -/
def add_input_edge (b : ChartPatchBuilder) (mint : AuditStamp) (input : InputRef) :
    Except BuildError ChartPatchBuilder :=
  let inputUrn : String :=
    match input with
    | .edge e => e.destinationUrn
    | .urn u => u
    | .str s => s
  let inputEdge : Edge :=
    match input with
    | .edge e => e
    | .urn u => { destinationUrn := u, created := some mint, lastModified := some mint }
    | .str s => { destinationUrn := s, created := some mint, lastModified := some mint }
  match ensureUrnType "dataset" [inputEdge] with
  | .error e => .error e
  | .ok _ =>
      .ok (addPatch b chartInfoAspect .add ("/inputEdges/" ++ quote inputUrn)
        (.vStr inputUrn))

/-- `ChartPatchBuilder.remove_input_edge` (chart.py:128-144): a `remove` at
`/inputEdges/<quote(str(input))>` with the empty marker. -/
def remove_input_edge (b : ChartPatchBuilder) (input : UrnOrStr) : ChartPatchBuilder :=
  addPatch b chartInfoAspect .remove ("/inputEdges/" ++ quote input.toString) .vEmpty

/-- `ChartPatchBuilder.set_input_edges` (chart.py:146-165): one `add` at the
bare `/inputEdges` path whose value is the whole list. -/
def set_input_edges (b : ChartPatchBuilder) (inputs : List Edge) : ChartPatchBuilder :=
  addPatch b chartInfoAspect .add "/inputEdges" (.vEdges inputs)

/-- `ChartPatchBuilder.add_tag` (chart.py:167-180): an `add` at
`/tags/\x7btag.tag\x7d` — the tag id is concatenated as-is, not quoted. -/
def add_tag (b : ChartPatchBuilder) (tag : Tag) : ChartPatchBuilder :=
  addPatch b globalTagsAspect .add ("/tags/" ++ tag.tag) (.vTag tag)

/-- `ChartPatchBuilder.remove_tag` (chart.py:182-195): a bare string without
the `urn:li:tag:` prefix is first normalized through
`TagUrn.create_from_id`; then a `remove` at `/tags/\x7btag\x7d` (unquoted). -/
def remove_tag (b : ChartPatchBuilder) (tag : UrnOrStr) : ChartPatchBuilder :=
  let t : String :=
    match tag with
    | .str s => if strStartsWith s "urn:li:tag:" then s else tagUrnCreateFromId s
    | .urn u => u
  addPatch b globalTagsAspect .remove ("/tags/" ++ t) .vEmpty

/-- `ChartPatchBuilder.add_term` (chart.py:197-210): an `add` at
`/terms/\x7bterm.urn\x7d` (unquoted). -/
def add_term (b : ChartPatchBuilder) (term : Term) : ChartPatchBuilder :=
  addPatch b glossaryTermsAspect .add ("/terms/" ++ term.urn) (.vTerm term)

/-- `ChartPatchBuilder.remove_term` (chart.py:212-227): a bare string without
the `urn:li:glossaryTerm:` prefix gets the prefix prepended; then a `remove`
at `/terms/\x7bterm\x7d` (unquoted). -/
def remove_term (b : ChartPatchBuilder) (term : UrnOrStr) : ChartPatchBuilder :=
  let t : String :=
    match term with
    | .str s =>
        if strStartsWith s "urn:li:glossaryTerm:" then s
        else "urn:li:glossaryTerm:" ++ s
    | .urn u => u
  addPatch b glossaryTermsAspect .remove ("/terms/" ++ t) .vEmpty

/-- `ChartPatchBuilder.set_custom_properties` (chart.py:229-250): one `add` at
the bare `/customProperties` path whose value is the whole dictionary. -/
def set_custom_properties (b : ChartPatchBuilder)
    (customProperties : List (String × String)) : ChartPatchBuilder :=
  addPatch b chartInfoAspect .add "/customProperties" (.vProps customProperties)

/-- `ChartPatchBuilder.add_custom_property` (chart.py:252-264): delegates to
the custom-properties helper. -/
def add_custom_property (b : ChartPatchBuilder) (key value : String) :
    Except BuildError ChartPatchBuilder :=
  customPropertiesAddProperty b key value

/-- `ChartPatchBuilder.remove_custom_property` (chart.py:266-277): delegates to
the custom-properties helper. -/
def remove_custom_property (b : ChartPatchBuilder) (key : String) :
    Except BuildError ChartPatchBuilder :=
  customPropertiesRemoveProperty b key

/-- `ChartPatchBuilder.set_title` (chart.py:279-288): asserts the title is
non-empty (the spec's `RequiredFieldError`, carrying the source's assertion
message), then one `add` at `/title`. -/
def set_title (b : ChartPatchBuilder) (title : String) :
    Except BuildError ChartPatchBuilder :=
  if title = "" then
    .error (.requiredFieldError "ChartInfo title should not be None")
  else
    .ok (addPatch b chartInfoAspect .add "/title" (.vStr title))

/-- `ChartPatchBuilder.set_description` (chart.py:290-299): asserts the
description is non-empty, then one `add` at `/description`. -/
def set_description (b : ChartPatchBuilder) (description : String) :
    Except BuildError ChartPatchBuilder :=
  if description = "" then
    .error (.requiredFieldError "DashboardInfo description should not be None")
  else
    .ok (addPatch b chartInfoAspect .add "/description" (.vStr description))

/-- `ChartPatchBuilder.set_last_refreshed` (chart.py:301-310): Python
truthiness — `None` and `0` are silently skipped, anything else appends one
`add` at `/lastRefreshed`. -/
def set_last_refreshed (b : ChartPatchBuilder) (lastRefreshed : Option Int) :
    ChartPatchBuilder :=
  match lastRefreshed with
  | some n =>
      if n = 0 then b
      else addPatch b chartInfoAspect .add "/lastRefreshed" (.vInt n)
  | none => b

/-- `ChartPatchBuilder.set_last_modified` (chart.py:312-323): the parameter is
a (non-optional, always truthy) `ChangeAuditStampsClass`, so the `if` always
appends one `add` at `/lastModified`. -/
def set_last_modified (b : ChartPatchBuilder) (lastModified : ChangeAuditStamps) :
    ChartPatchBuilder :=
  addPatch b chartInfoAspect .add "/lastModified" (.vAuditStamps lastModified)

/-- `ChartPatchBuilder.set_external_url` (chart.py:325-333): `None` and `""`
are silently skipped, otherwise one `add` at `/externalUrl`. -/
def set_external_url (b : ChartPatchBuilder) (externalUrl : Option String) :
    ChartPatchBuilder :=
  match externalUrl with
  | some s =>
      if s = "" then b else addPatch b chartInfoAspect .add "/externalUrl" (.vStr s)
  | none => b

/-- `ChartPatchBuilder.set_chart_url` (chart.py:335-344): `None` and `""` are
silently skipped, otherwise one `add` at `/chartUrl`. -/
def set_chart_url (b : ChartPatchBuilder) (dashboardUrl : Option String) :
    ChartPatchBuilder :=
  match dashboardUrl with
  | some s =>
      if s = "" then b else addPatch b chartInfoAspect .add "/chartUrl" (.vStr s)
  | none => b

/-- `ChartPatchBuilder.set_type` (chart.py:346-357): `ChartTypeClass` values
are strings; `None` and `""` are silently skipped, otherwise one `add` at
`/type`. -/
def set_type (b : ChartPatchBuilder) (type : Option String) : ChartPatchBuilder :=
  match type with
  | some s =>
      if s = "" then b else addPatch b chartInfoAspect .add "/type" (.vStr s)
  | none => b

/-- `ChartPatchBuilder.set_access` (chart.py:359-370): `AccessLevelClass`
values are strings; `None` and `""` are silently skipped, otherwise one
`add` at `/access`. -/
def set_access (b : ChartPatchBuilder) (access : Option String) : ChartPatchBuilder :=
  match access with
  | some s =>
      if s = "" then b else addPatch b chartInfoAspect .add "/access" (.vStr s)
  | none => b

/-- `ChartPatchBuilder.add_inputs` (chart.py:372-382): for each urn in the
(optional) list, one `add` at `/inputs/\x7burn\x7d` (unquoted) with the urn as
value; `None` is a no-op. -/
def add_inputs (b : ChartPatchBuilder) (inputUrns : Option (List String)) :
    ChartPatchBuilder :=
  match inputUrns with
  | some urns =>
      urns.foldl (fun acc urn =>
        addPatch acc chartInfoAspect .add ("/inputs/" ++ urn) (.vStr urn)) b
  | none => b

/-- Modelled from the spec: the wire-ready `PatchRequest` produced by `build()`
(§4.4, §6): entity id, aspect-grouped ordered patch operations, optional
system metadata and audit header. -/
structure PatchRequest where
  entityId : String
  aspectPatches : List (String × List PatchOp)
  systemMetadata : Option String
  auditHeader : Option String
deriving DecidableEq, Repr

/-- Aspect names in order of first appearance in the accumulator. -/
def aspectOrder (ops : List PatchOp) : List String :=
  ops.foldl (fun acc op =>
    if acc.contains op.aspectName then acc else acc ++ [op.aspectName]) []

/-- Modelled from the spec: the Patch Accumulator's `materialize()` (§4.2) —
a pure read grouping the operations by aspect name while preserving
cross-aspect (order of first appearance) and intra-aspect insertion order. -/
def materialize (ops : List PatchOp) : List (String × List PatchOp) :=
  (aspectOrder ops).map (fun a => (a, ops.filter (fun op => op.aspectName = a)))

/-- Modelled from the spec: `MetadataPatchProposal.build()` (§4.4) — the entity
identifier, the materialized aspect-grouped batch, and the optional
metadata, without mutating the accumulator. -/
def build (b : ChartPatchBuilder) : PatchRequest :=
  { entityId := b.urn, aspectPatches := materialize b.patches,
    systemMetadata := b.systemMetadata, auditHeader := b.auditHeader }

/-- The materialized batch flattened back to a single ordered operation
sequence (aspect groups in first-appearance order). -/
def flattenOps (r : PatchRequest) : List PatchOp :=
  (r.aspectPatches.map Prod.snd).flatten

/-- A chart builder for the spec scenario's entity
`urn:li:chart:(tool,id1)`. -/
def chartBuilder0 : ChartPatchBuilder :=
  mkChartPatchBuilder "urn:li:chart:(tool,id1)"

/-- The spec scenario: `set_title("Revenue")`, `add_tag(Tag(tag="urn:li:tag:pii"))`,
`remove_owner("urn:li:corpuser:alice")`, then `build()`, on `chartBuilder0`. -/
def c1Request : Except BuildError PatchRequest :=
  ((set_title chartBuilder0 "Revenue").bind (fun b1 =>
    remove_owner (add_tag b1 ⟨"urn:li:tag:pii"⟩) "urn:li:corpuser:alice" none)).map
    build

/-- A fully-formed input edge carrying caller-supplied created / lastModified
stamps, targeting a dataset-typed urn. -/
def c3Edge : Edge :=
  { destinationUrn := "urn:li:dataset:(urn:li:dataPlatform:hive,t1,PROD)",
    created := some ⟨11, "urn:li:corpuser:alice"⟩,
    lastModified := some ⟨22, "urn:li:corpuser:alice"⟩ }

/-- The operations of a materialized batch addressing one field: path equal to
the bare field or starting with `field/`. -/
def opsOnField (r : PatchRequest) (field : String) : List PatchOp :=
  (flattenOps r).filter (fun op => op.path == field || strStartsWith op.path (field ++ "/"))

/-- The returned builder is the same accumulator the call was invoked on: its
identity (urn, system metadata, audit header) is untouched and its operation
sequence only grew at the end. -/
def extendsOnly (b r : ChartPatchBuilder) : Prop :=
  r.urn = b.urn ∧ r.systemMetadata = b.systemMetadata ∧
    r.auditHeader = b.auditHeader ∧ b.patches <+: r.patches

/-- `extendsOnly` on the success branch of a fallible mutation call; a raised
error returns no builder at all (the caller keeps the untouched one). -/
def okExtends (b : ChartPatchBuilder) : Except BuildError ChartPatchBuilder → Prop
  | .ok r => extendsOnly b r
  | .error _ => True

/-- The `input_urn` of `add_input_edge`: the destination urn of a given edge,
or the bare string of a `Urn` / `str` argument. -/
def InputRef.destUrn : InputRef → String
  | .edge e => e.destinationUrn
  | .urn u => u
  | .str s => s

/-- On the success branch, the call appended exactly the given operations at
the end of the accumulator; a raised error returns no builder and appends
nothing. -/
def okPatches (b : ChartPatchBuilder) (r : Except BuildError ChartPatchBuilder)
    (ops : List PatchOp) : Prop :=
  match r with
  | .ok r' => r'.patches = b.patches ++ ops
  | .error _ => True

/-- `extendsOnly` is reflexive: a no-op call keeps the same builder. -/
theorem extendsOnly_refl (b : ChartPatchBuilder) : extendsOnly b b :=
  ⟨rfl, rfl, rfl, List.prefix_refl _⟩

/-- One `append` to the accumulator only extends the builder. -/
theorem extendsOnly_addPatch (b : ChartPatchBuilder) (a : String)
    (op : PatchOpKind) (p : String) (v : PatchValue) :
    extendsOnly b (addPatch b a op p v) :=
  ⟨rfl, rfl, rfl, List.prefix_append _ _⟩

/-- `extendsOnly` composes along a chain of calls. -/
theorem extendsOnly_trans {a b c : ChartPatchBuilder}
    (h1 : extendsOnly a b) (h2 : extendsOnly b c) : extendsOnly a c :=
  ⟨h2.1.trans h1.1, h2.2.1.trans h1.2.1, h2.2.2.1.trans h1.2.2.1,
    h1.2.2.2.trans h2.2.2.2⟩

/-- `add_owner` only extends the builder it returns. -/
theorem add_owner_extends (b : ChartPatchBuilder) (o : Owner) :
    okExtends b (add_owner b o) := by
  unfold add_owner ownershipAddOwner
  by_cases h : o.owner = "" <;> simp [h, okExtends, extendsOnly_addPatch]

/-- `remove_owner` only extends the builder it returns. -/
theorem remove_owner_extends (b : ChartPatchBuilder) (o : String)
    (t : Option String) : okExtends b (remove_owner b o t) := by
  unfold remove_owner ownershipRemoveOwner
  by_cases h : o = "" <;> cases t <;> simp [h, okExtends, extendsOnly_addPatch]

/-- `set_owners` only extends the builder. -/
theorem set_owners_extends (b : ChartPatchBuilder) (os : List Owner) :
    extendsOnly b (set_owners b os) :=
  extendsOnly_addPatch b _ _ _ _

/-- `add_input_edge` only extends the builder it returns. -/
theorem add_input_edge_extends (b : ChartPatchBuilder) (m : AuditStamp)
    (i : InputRef) : okExtends b (add_input_edge b m i) := by
  unfold add_input_edge
  cases i <;> dsimp only <;> split <;>
    simp [okExtends, extendsOnly_addPatch]

/-- `remove_input_edge` only extends the builder. -/
theorem remove_input_edge_extends (b : ChartPatchBuilder) (i : UrnOrStr) :
    extendsOnly b (remove_input_edge b i) :=
  extendsOnly_addPatch b _ _ _ _

/-- `set_input_edges` only extends the builder. -/
theorem set_input_edges_extends (b : ChartPatchBuilder) (es : List Edge) :
    extendsOnly b (set_input_edges b es) :=
  extendsOnly_addPatch b _ _ _ _

/-- `add_tag` only extends the builder. -/
theorem add_tag_extends (b : ChartPatchBuilder) (t : Tag) :
    extendsOnly b (add_tag b t) :=
  extendsOnly_addPatch b _ _ _ _

/-- `remove_tag` only extends the builder. -/
theorem remove_tag_extends (b : ChartPatchBuilder) (t : UrnOrStr) :
    extendsOnly b (remove_tag b t) :=
  extendsOnly_addPatch b _ _ _ _

/-- `add_term` only extends the builder. -/
theorem add_term_extends (b : ChartPatchBuilder) (t : Term) :
    extendsOnly b (add_term b t) :=
  extendsOnly_addPatch b _ _ _ _

/-- `remove_term` only extends the builder. -/
theorem remove_term_extends (b : ChartPatchBuilder) (t : UrnOrStr) :
    extendsOnly b (remove_term b t) :=
  extendsOnly_addPatch b _ _ _ _

/-- `set_custom_properties` only extends the builder. -/
theorem set_custom_properties_extends (b : ChartPatchBuilder)
    (ps : List (String × String)) : extendsOnly b (set_custom_properties b ps) :=
  extendsOnly_addPatch b _ _ _ _

/-- `add_custom_property` only extends the builder it returns. -/
theorem add_custom_property_extends (b : ChartPatchBuilder) (k v : String) :
    okExtends b (add_custom_property b k v) := by
  unfold add_custom_property customPropertiesAddProperty
  by_cases h : k = "" <;> simp [h, okExtends, extendsOnly_addPatch]

/-- `remove_custom_property` only extends the builder it returns. -/
theorem remove_custom_property_extends (b : ChartPatchBuilder) (k : String) :
    okExtends b (remove_custom_property b k) := by
  unfold remove_custom_property customPropertiesRemoveProperty
  by_cases h : k = "" <;> simp [h, okExtends, extendsOnly_addPatch]

/-- `set_title` only extends the builder it returns. -/
theorem set_title_extends (b : ChartPatchBuilder) (t : String) :
    okExtends b (set_title b t) := by
  unfold set_title
  by_cases h : t = "" <;> simp [h, okExtends, extendsOnly_addPatch]

/-- `set_description` only extends the builder it returns. -/
theorem set_description_extends (b : ChartPatchBuilder) (d : String) :
    okExtends b (set_description b d) := by
  unfold set_description
  by_cases h : d = "" <;> simp [h, okExtends, extendsOnly_addPatch]

/-- `set_last_refreshed` only extends the builder. -/
theorem set_last_refreshed_extends (b : ChartPatchBuilder) (n : Option Int) :
    extendsOnly b (set_last_refreshed b n) := by
  unfold set_last_refreshed
  cases n with
  | none => exact extendsOnly_refl b
  | some v =>
      by_cases h : v = 0 <;>
        simp [h, extendsOnly_refl, extendsOnly_addPatch]

/-- `set_last_modified` only extends the builder. -/
theorem set_last_modified_extends (b : ChartPatchBuilder)
    (lm : ChangeAuditStamps) : extendsOnly b (set_last_modified b lm) :=
  extendsOnly_addPatch b _ _ _ _

/-- `set_external_url` only extends the builder. -/
theorem set_external_url_extends (b : ChartPatchBuilder) (u : Option String) :
    extendsOnly b (set_external_url b u) := by
  unfold set_external_url
  cases u with
  | none => exact extendsOnly_refl b
  | some s =>
      by_cases h : s = "" <;>
        simp [h, extendsOnly_refl, extendsOnly_addPatch]

/-- `set_chart_url` only extends the builder. -/
theorem set_chart_url_extends (b : ChartPatchBuilder) (u : Option String) :
    extendsOnly b (set_chart_url b u) := by
  unfold set_chart_url
  cases u with
  | none => exact extendsOnly_refl b
  | some s =>
      by_cases h : s = "" <;>
        simp [h, extendsOnly_refl, extendsOnly_addPatch]

/-- `set_type` only extends the builder. -/
theorem set_type_extends (b : ChartPatchBuilder) (ty : Option String) :
    extendsOnly b (set_type b ty) := by
  unfold set_type
  cases ty with
  | none => exact extendsOnly_refl b
  | some s =>
      by_cases h : s = "" <;>
        simp [h, extendsOnly_refl, extendsOnly_addPatch]

/-- `set_access` only extends the builder. -/
theorem set_access_extends (b : ChartPatchBuilder) (a : Option String) :
    extendsOnly b (set_access b a) := by
  unfold set_access
  cases a with
  | none => exact extendsOnly_refl b
  | some s =>
      by_cases h : s = "" <;>
        simp [h, extendsOnly_refl, extendsOnly_addPatch]

/-- `add_inputs` only extends the builder. -/
theorem add_inputs_extends (b : ChartPatchBuilder) (us : Option (List String)) :
    extendsOnly b (add_inputs b us) := by
  cases us with
  | none => exact extendsOnly_refl b
  | some l =>
      induction l generalizing b with
      | nil => exact extendsOnly_refl b
      | cons u t ih =>
          exact extendsOnly_trans (extendsOnly_addPatch b _ _ _ _) (ih _)

/-- A list is a Boolean prefix of itself followed by anything. -/
theorem isPrefixOf_append_self (l t : List Char) : l.isPrefixOf (l ++ t) = true := by
  induction l with
  | nil => simp [List.isPrefixOf]
  | cons c cs ih => simp [List.isPrefixOf, ih]

/-- `strStartsWith` holds on an appended extension of the prefix. -/
theorem strStartsWith_append (pre s : String) :
    strStartsWith (pre ++ s) pre = true := by
  have h := isPrefixOf_append_self pre.toList s.toList
  simp only [strStartsWith, String.toList, String.data_append]
  exact h

/-- `add_inputs` on a present list appends one `add` at `/inputs/<urn>` per
urn, in list order, with the urn itself as the value. -/
theorem add_inputs_some_patches (b : ChartPatchBuilder) (urns : List String) :
    (add_inputs b (some urns)).patches
      = b.patches ++ urns.map (fun u =>
          ⟨chartInfoAspect, .add, "/inputs/" ++ u, .vStr u⟩) := by
  induction urns generalizing b with
  | nil => simp [add_inputs]
  | cons u us ih =>
      show (add_inputs (addPatch b chartInfoAspect .add ("/inputs/" ++ u)
        (.vStr u)) (some us)).patches = _
      rw [ih]
      simp [addPatch]

/-- On success, `add_input_edge` appends exactly one operation at the
codec-quoted `/inputEdges/<quote(input_urn)>` path, for every input
shape. -/
theorem add_input_edge_okPatches (b : ChartPatchBuilder) (m : AuditStamp)
    (i : InputRef) :
    okPatches b (add_input_edge b m i)
      [⟨chartInfoAspect, .add, "/inputEdges/" ++ quote i.destUrn,
        .vStr i.destUrn⟩] := by
  unfold add_input_edge
  cases i <;> dsimp only <;> split <;>
    simp [okPatches, addPatch, InputRef.destUrn]

/-- Claim C1: on a builder for `urn:li:chart:(tool,id1)`, the sequence
`set_title("Revenue")`, `add_tag(Tag(tag="urn:li:tag:pii"))`,
`remove_owner("urn:li:corpuser:alice")`, `build()` yields a PatchRequest
whose entityId is `urn:li:chart:(tool,id1)` and whose materialized batch is
exactly: add `/title` = "Revenue", add `/tags/urn:li:tag:pii`, remove
`/owners/urn:li:corpuser:alice`, in that order. -/
theorem c1_chart_scenario :
    c1Request = .ok
      { entityId := "urn:li:chart:(tool,id1)",
        aspectPatches :=
          [(chartInfoAspect, [⟨chartInfoAspect, .add, "/title", .vStr "Revenue"⟩]),
           (globalTagsAspect,
             [⟨globalTagsAspect, .add, "/tags/urn:li:tag:pii",
               .vTag ⟨"urn:li:tag:pii"⟩⟩]),
           (ownershipAspect,
             [⟨ownershipAspect, .remove, "/owners/urn:li:corpuser:alice",
               .vEmpty⟩])],
        systemMetadata := none, auditHeader := none }
    ∧ c1Request.map flattenOps = .ok
        [⟨chartInfoAspect, .add, "/title", .vStr "Revenue"⟩,
         ⟨globalTagsAspect, .add, "/tags/urn:li:tag:pii", .vTag ⟨"urn:li:tag:pii"⟩⟩,
         ⟨ownershipAspect, .remove, "/owners/urn:li:corpuser:alice", .vEmpty⟩] := by
  exact ⟨by decide, by decide⟩

/-- Claim C2, counterexample: `add_tag` concatenates the tag id into the path
without passing it through the codec — for the tag id `a/b` the path is
`/tags/a/b`, not `/tags/` followed by `quote "a/b"`. -/
theorem c2_tag_path_unquoted :
    add_tag chartBuilder0 ⟨"a/b"⟩
      = { chartBuilder0 with patches :=
          [⟨globalTagsAspect, .add, "/tags/a/b", .vTag ⟨"a/b"⟩⟩] }
    ∧ "/tags/a/b" ≠ "/tags/" ++ quote "a/b" := by
  exact ⟨by decide, by decide⟩

/-- Claim C2, amended: only the input-edge mutation calls escape their key
segment through the codec (`/inputEdges/<quote(urn)>`, for every input
shape and on the success branch); `add_tag`, `remove_tag`, `add_term`,
`remove_term` and `add_inputs` concatenate the tag id, term urn and input
urn into the path unescaped (for `remove_tag` / `remove_term`, the
possibly prefix-normalized key as-is); the spec-modelled ownership and
custom-properties helpers do quote their keys. -/
theorem c2_amended_quoting :
    (∀ (b : ChartPatchBuilder) (i : UrnOrStr), (remove_input_edge b i).patches
        = b.patches ++ [⟨chartInfoAspect, .remove,
            "/inputEdges/" ++ quote i.toString, .vEmpty⟩])
  ∧ (∀ (b : ChartPatchBuilder) (m : AuditStamp) (i : InputRef),
        okPatches b (add_input_edge b m i)
          [⟨chartInfoAspect, .add, "/inputEdges/" ++ quote i.destUrn,
            .vStr i.destUrn⟩])
  ∧ (∀ (b : ChartPatchBuilder) (t : Tag), (add_tag b t).patches
        = b.patches ++ [⟨globalTagsAspect, .add, "/tags/" ++ t.tag, .vTag t⟩])
  ∧ (∀ (b : ChartPatchBuilder) (u : String), (remove_tag b (.urn u)).patches
        = b.patches ++ [⟨globalTagsAspect, .remove, "/tags/" ++ u, .vEmpty⟩])
  ∧ (∀ (b : ChartPatchBuilder) (s : String), (remove_tag b (.str s)).patches
        = b.patches ++ [⟨globalTagsAspect, .remove,
            "/tags/" ++ (if strStartsWith s "urn:li:tag:" then s
              else tagUrnCreateFromId s), .vEmpty⟩])
  ∧ (∀ (b : ChartPatchBuilder) (t : Term), (add_term b t).patches
        = b.patches ++ [⟨glossaryTermsAspect, .add, "/terms/" ++ t.urn, .vTerm t⟩])
  ∧ (∀ (b : ChartPatchBuilder) (u : String), (remove_term b (.urn u)).patches
        = b.patches ++ [⟨glossaryTermsAspect, .remove, "/terms/" ++ u, .vEmpty⟩])
  ∧ (∀ (b : ChartPatchBuilder) (s : String), (remove_term b (.str s)).patches
        = b.patches ++ [⟨glossaryTermsAspect, .remove,
            "/terms/" ++ (if strStartsWith s "urn:li:glossaryTerm:" then s
              else "urn:li:glossaryTerm:" ++ s), .vEmpty⟩])
  ∧ (∀ (b : ChartPatchBuilder) (urns : List String),
        (add_inputs b (some urns)).patches
          = b.patches ++ urns.map (fun u =>
              ⟨chartInfoAspect, .add, "/inputs/" ++ u, .vStr u⟩))
  ∧ (∀ (b : ChartPatchBuilder) (o : Owner),
        okPatches b (add_owner b o)
          [⟨ownershipAspect, .add,
            "/owners/" ++ quote o.owner ++ "/" ++ quote o.type, .vOwner o⟩])
  ∧ (∀ (b : ChartPatchBuilder) (o ty : String),
        okPatches b (remove_owner b o (some ty))
          [⟨ownershipAspect, .remove,
            "/owners/" ++ quote o ++ "/" ++ quote ty, .vEmpty⟩])
  ∧ (∀ (b : ChartPatchBuilder) (o : String),
        okPatches b (remove_owner b o none)
          [⟨ownershipAspect, .remove, "/owners/" ++ quote o, .vEmpty⟩])
  ∧ (∀ (b : ChartPatchBuilder) (k v : String),
        okPatches b (add_custom_property b k v)
          [⟨chartInfoAspect, .add, "/customProperties/" ++ quote k, .vStr v⟩])
  ∧ (∀ (b : ChartPatchBuilder) (k : String),
        okPatches b (remove_custom_property b k)
          [⟨chartInfoAspect, .remove, "/customProperties/" ++ quote k, .vEmpty⟩]) := by
  refine ⟨fun _ _ => rfl, add_input_edge_okPatches, fun _ _ => rfl,
    fun _ _ => rfl, fun _ _ => rfl, fun _ _ => rfl, fun _ _ => rfl,
    fun _ _ => rfl, add_inputs_some_patches, ?_, ?_, ?_, ?_, ?_⟩
  · intro b o
    by_cases h : o.owner = "" <;>
      simp [add_owner, ownershipAddOwner, h, okPatches, addPatch]
  · intro b o ty
    by_cases h : o = "" <;>
      simp [remove_owner, ownershipRemoveOwner, h, okPatches, addPatch]
  · intro b o
    by_cases h : o = "" <;>
      simp [remove_owner, ownershipRemoveOwner, h, okPatches, addPatch]
  · intro b k v
    by_cases h : k = "" <;>
      simp [add_custom_property, customPropertiesAddProperty, h, okPatches, addPatch]
  · intro b k
    by_cases h : k = "" <;>
      simp [remove_custom_property, customPropertiesRemoveProperty, h, okPatches,
        addPatch]

/-- Claim C3, code evaluated at the failing input: for a fully-formed `Edge`
with caller-supplied created / lastModified stamps, `add_input_edge`
appends an operation whose value is the bare destination urn string — the
edge, and with it the caller's timestamps, never reaches the operation. -/
theorem c3_edge_value_dropped :
    add_input_edge chartBuilder0 ⟨5, "urn:li:corpuser:ingestion"⟩ (.edge c3Edge)
      = .ok { chartBuilder0 with patches :=
          [⟨chartInfoAspect, .add,
            "/inputEdges/urn:li:dataset:(urn:li:dataPlatform:hive,t1,PROD)",
            .vStr "urn:li:dataset:(urn:li:dataPlatform:hive,t1,PROD)"⟩] }
    ∧ PatchValue.vStr "urn:li:dataset:(urn:li:dataPlatform:hive,t1,PROD)"
        ≠ .vEdge c3Edge := by
  exact ⟨by decide, by decide⟩

/-- Claim C4: `add_input_edge` on a urn whose type-qualifier is not `dataset`
(here `urn:li:corpuser:bob`) fails with `InvalidUrnTypeError` before any
append — the error is raised instead of a builder being returned, so the
accumulator is exactly as before the call. -/
theorem c4_wrong_urn_type_rejected (b : ChartPatchBuilder) (m : AuditStamp) :
    add_input_edge b m (.str "urn:li:corpuser:bob")
      = .error (.invalidUrnTypeError "dataset" "urn:li:corpuser:bob") := rfl

/-- Claim C5: `set_title("")` and `set_description("")` fail with
`RequiredFieldError` (the source's assertion); no builder is returned, so
the accumulator is unchanged. -/
theorem c5_empty_required_fields (b : ChartPatchBuilder) :
    set_title b "" = .error (.requiredFieldError "ChartInfo title should not be None")
    ∧ set_description b ""
        = .error (.requiredFieldError "DashboardInfo description should not be None") :=
  ⟨rfl, rfl⟩

/-- Claim C6: each wholesale-set call appends exactly one `add` operation at
the bare field path with the entire collection as value, and on a fresh
builder, after `build()` exactly one operation addresses that field. -/
theorem c6_wholesale_set :
    (∀ (b : ChartPatchBuilder) (inputs : List Edge), (set_input_edges b inputs).patches
        = b.patches ++ [⟨chartInfoAspect, .add, "/inputEdges", .vEdges inputs⟩])
  ∧ (∀ (b : ChartPatchBuilder) (props : List (String × String)),
        (set_custom_properties b props).patches
          = b.patches ++ [⟨chartInfoAspect, .add, "/customProperties", .vProps props⟩])
  ∧ (∀ (b : ChartPatchBuilder) (owners : List Owner), (set_owners b owners).patches
        = b.patches ++ [⟨ownershipAspect, .add, "/owners", .vOwners owners⟩])
  ∧ (∀ (u : String) (inputs : List Edge),
        (opsOnField (build (set_input_edges (mkChartPatchBuilder u) inputs))
          "/inputEdges").length = 1)
  ∧ (∀ (u : String) (props : List (String × String)),
        (opsOnField (build (set_custom_properties (mkChartPatchBuilder u) props))
          "/customProperties").length = 1)
  ∧ (∀ (u : String) (owners : List Owner),
        (opsOnField (build (set_owners (mkChartPatchBuilder u) owners))
          "/owners").length = 1) :=
  ⟨fun _ _ => rfl, fun _ _ => rfl, fun _ _ => rfl, fun _ _ => rfl,
    fun _ _ => rfl, fun _ _ => rfl⟩

/-- Claim C7, counterexample: the spec-modelled custom-properties helper fails
with `InvalidArgumentError` on a structurally empty key, so for the key
`""` the add-entry call appends nothing at all, rather than leaving an
add-then-remove pair in the batch. -/
theorem c7_empty_key_rejected :
    add_custom_property chartBuilder0 "" "v1"
      = .error (.invalidArgumentError "customProperties key must be non-empty") :=
  rfl

/-- Claim C7, amended: for every non-empty key, add-entry followed by
remove-entry on the same key leaves both operations in the accumulator,
ordered add-then-remove, never collapsed. -/
theorem c7_add_then_remove (b : ChartPatchBuilder) (k v : String) (h : k ≠ "") :
    (add_custom_property b k v).bind (fun b1 => remove_custom_property b1 k)
      = .ok { b with patches := b.patches
          ++ [⟨chartInfoAspect, .add, "/customProperties/" ++ quote k, .vStr v⟩,
              ⟨chartInfoAspect, .remove, "/customProperties/" ++ quote k, .vEmpty⟩] } := by
  simp [add_custom_property, customPropertiesAddProperty, remove_custom_property,
    customPropertiesRemoveProperty, h, addPatch, Except.bind]

/-- Claim C7, witness: the amended statement at the concrete key `k1`. -/
theorem c7_add_then_remove_witness :
    (add_custom_property chartBuilder0 "k1" "v1").bind
        (fun b1 => remove_custom_property b1 "k1")
      = .ok { chartBuilder0 with patches := chartBuilder0.patches
          ++ [⟨chartInfoAspect, .add, "/customProperties/" ++ quote "k1", .vStr "v1"⟩,
              ⟨chartInfoAspect, .remove, "/customProperties/" ++ quote "k1", .vEmpty⟩] } :=
  c7_add_then_remove chartBuilder0 "k1" "v1" (by decide)

/-- Claim C8: each non-required scalar setter appends exactly one `add`
operation for a non-empty / non-null / non-zero value and returns the
builder unchanged for an empty, null or zero value. -/
theorem c8_optional_scalar_setters :
    (∀ (b : ChartPatchBuilder) (n : Int), set_last_refreshed b (some n)
        = if n = 0 then b
          else { b with patches := b.patches
            ++ [⟨chartInfoAspect, .add, "/lastRefreshed", .vInt n⟩] })
  ∧ (∀ b : ChartPatchBuilder, set_last_refreshed b none = b)
  ∧ (∀ (b : ChartPatchBuilder) (s : String), set_external_url b (some s)
        = if s = "" then b
          else { b with patches := b.patches
            ++ [⟨chartInfoAspect, .add, "/externalUrl", .vStr s⟩] })
  ∧ (∀ b : ChartPatchBuilder, set_external_url b none = b)
  ∧ (∀ (b : ChartPatchBuilder) (s : String), set_chart_url b (some s)
        = if s = "" then b
          else { b with patches := b.patches
            ++ [⟨chartInfoAspect, .add, "/chartUrl", .vStr s⟩] })
  ∧ (∀ b : ChartPatchBuilder, set_chart_url b none = b)
  ∧ (∀ (b : ChartPatchBuilder) (s : String), set_type b (some s)
        = if s = "" then b
          else { b with patches := b.patches
            ++ [⟨chartInfoAspect, .add, "/type", .vStr s⟩] })
  ∧ (∀ b : ChartPatchBuilder, set_type b none = b)
  ∧ (∀ (b : ChartPatchBuilder) (s : String), set_access b (some s)
        = if s = "" then b
          else { b with patches := b.patches
            ++ [⟨chartInfoAspect, .add, "/access", .vStr s⟩] })
  ∧ (∀ b : ChartPatchBuilder, set_access b none = b) :=
  ⟨fun _ _ => rfl, fun _ => rfl, fun _ _ => rfl, fun _ => rfl, fun _ _ => rfl,
    fun _ => rfl, fun _ _ => rfl, fun _ => rfl, fun _ _ => rfl, fun _ => rfl⟩

/-- Claim C9: every mutation method hands back the very builder it was invoked
on — urn, system metadata and audit header untouched, accumulator only
extended at the end (for fallible methods, on the success branch; a raised
error returns no builder and the caller keeps the untouched one). -/
theorem c9_fluent_returns_builder :
    (∀ (b : ChartPatchBuilder) (o : Owner), okExtends b (add_owner b o))
  ∧ (∀ (b : ChartPatchBuilder) (o : String) (t : Option String),
      okExtends b (remove_owner b o t))
  ∧ (∀ (b : ChartPatchBuilder) (os : List Owner), extendsOnly b (set_owners b os))
  ∧ (∀ (b : ChartPatchBuilder) (m : AuditStamp) (i : InputRef),
      okExtends b (add_input_edge b m i))
  ∧ (∀ (b : ChartPatchBuilder) (i : UrnOrStr), extendsOnly b (remove_input_edge b i))
  ∧ (∀ (b : ChartPatchBuilder) (es : List Edge), extendsOnly b (set_input_edges b es))
  ∧ (∀ (b : ChartPatchBuilder) (t : Tag), extendsOnly b (add_tag b t))
  ∧ (∀ (b : ChartPatchBuilder) (t : UrnOrStr), extendsOnly b (remove_tag b t))
  ∧ (∀ (b : ChartPatchBuilder) (t : Term), extendsOnly b (add_term b t))
  ∧ (∀ (b : ChartPatchBuilder) (t : UrnOrStr), extendsOnly b (remove_term b t))
  ∧ (∀ (b : ChartPatchBuilder) (ps : List (String × String)),
      extendsOnly b (set_custom_properties b ps))
  ∧ (∀ (b : ChartPatchBuilder) (k v : String), okExtends b (add_custom_property b k v))
  ∧ (∀ (b : ChartPatchBuilder) (k : String), okExtends b (remove_custom_property b k))
  ∧ (∀ (b : ChartPatchBuilder) (t : String), okExtends b (set_title b t))
  ∧ (∀ (b : ChartPatchBuilder) (d : String), okExtends b (set_description b d))
  ∧ (∀ (b : ChartPatchBuilder) (n : Option Int), extendsOnly b (set_last_refreshed b n))
  ∧ (∀ (b : ChartPatchBuilder) (lm : ChangeAuditStamps),
      extendsOnly b (set_last_modified b lm))
  ∧ (∀ (b : ChartPatchBuilder) (u : Option String), extendsOnly b (set_external_url b u))
  ∧ (∀ (b : ChartPatchBuilder) (u : Option String), extendsOnly b (set_chart_url b u))
  ∧ (∀ (b : ChartPatchBuilder) (ty : Option String), extendsOnly b (set_type b ty))
  ∧ (∀ (b : ChartPatchBuilder) (a : Option String), extendsOnly b (set_access b a))
  ∧ (∀ (b : ChartPatchBuilder) (us : Option (List String)),
      extendsOnly b (add_inputs b us)) :=
  ⟨add_owner_extends, remove_owner_extends, set_owners_extends,
    add_input_edge_extends, remove_input_edge_extends, set_input_edges_extends,
    add_tag_extends, remove_tag_extends, add_term_extends, remove_term_extends,
    set_custom_properties_extends, add_custom_property_extends,
    remove_custom_property_extends, set_title_extends, set_description_extends,
    set_last_refreshed_extends, set_last_modified_extends,
    set_external_url_extends, set_chart_url_extends, set_type_extends,
    set_access_extends, add_inputs_extends⟩

/-- Claim C10: `remove_tag` and `remove_term` normalize bare string keys — a
string without the `urn:li:tag:` prefix is replaced by the corresponding
tag urn (so the call equals `remove_tag` on that urn and the path is
`/tags/urn:li:tag:<s>`), a string without the `urn:li:glossaryTerm:`
prefix gets that prefix prepended in the `/terms/...` path, and strings
already carrying the prefix are used as-is. -/
theorem c10_remove_tag_term_normalization :
    (∀ (b : ChartPatchBuilder) (s : String), strStartsWith s "urn:li:tag:" = false →
        remove_tag b (.str s) = remove_tag b (.str (tagUrnCreateFromId s))
        ∧ (remove_tag b (.str s)).patches
            = b.patches ++ [⟨globalTagsAspect, .remove, "/tags/urn:li:tag:" ++ s,
                .vEmpty⟩])
  ∧ (∀ (b : ChartPatchBuilder) (s : String),
        strStartsWith s "urn:li:glossaryTerm:" = false →
        (remove_term b (.str s)).patches
          = b.patches ++ [⟨glossaryTermsAspect, .remove,
              "/terms/urn:li:glossaryTerm:" ++ s, .vEmpty⟩])
  ∧ (∀ (b : ChartPatchBuilder) (s : String), strStartsWith s "urn:li:tag:" = true →
        (remove_tag b (.str s)).patches
          = b.patches ++ [⟨globalTagsAspect, .remove, "/tags/" ++ s, .vEmpty⟩])
  ∧ (∀ (b : ChartPatchBuilder) (s : String),
        strStartsWith s "urn:li:glossaryTerm:" = true →
        (remove_term b (.str s)).patches
          = b.patches ++ [⟨glossaryTermsAspect, .remove, "/terms/" ++ s, .vEmpty⟩]) := by
  refine ⟨fun b s h => ⟨?_, ?_⟩, fun b s h => ?_, fun b s h => ?_, fun b s h => ?_⟩
  · simp [remove_tag, tagUrnCreateFromId, h, strStartsWith_append]
  · simp [remove_tag, tagUrnCreateFromId, h, addPatch]
    constructor
  · simp [remove_term, h, addPatch]
    constructor
  · simp [remove_tag, h, addPatch]
  · simp [remove_term, h, addPatch]

/-- Claim C10, witness: the bare id `pii` is normalized to the same remove
operation as the full tag urn. -/
theorem c10_normalization_witness :
    remove_tag chartBuilder0 (.str "pii")
      = remove_tag chartBuilder0 (.str (tagUrnCreateFromId "pii")) :=
  (c10_remove_tag_term_normalization.1 chartBuilder0 "pii" (by decide)).1

end DatahubChart
